import Mathlib

/-!
Shallow embedding of `agent/src/logwatch.py`: a one-shot log-watching agent
that fetches a bounded tail of a log, matches it against named regular
expression patterns, and writes a markdown incident artifact.

Modelling conventions:
* Python strings are Lean `String`s; file contents are `Option (List String)`
  (`none` models a missing file, mirroring `FileNotFoundError`).
* The external regular-expression engine (`re.search`) is an explicit
  parameter `search : String → String → Except String Bool`; `.error`
  models the `re.error` exception Python raises on an invalid pattern.
* The external secure-shell transport (`subprocess.run`) is an explicit
  parameter `transport : List String → SubprocessResult` mapping the argv
  of the single issued command to its captured result.
* Environment-supplied timestamps are explicit string parameters of the
  renderer; the YAML parsing of the configuration file is external and the
  configuration is modelled as the already-loaded record `Config`, with
  `Option String` fields whose Python truthiness is `truthyS`.
-/

namespace Logwatch

/-- Python whitespace characters recognised by `str.strip()`. -/
def isPyWs (c : Char) : Bool :=
  c = ' ' || c = '\t' || c = '\n' || c = '\x0d' || c = '\x0b' || c = '\x0c'

/-- Model of Python `s.strip()`: drop leading and trailing whitespace. -/
def pyStrip (s : String) : String :=
  String.mk (((s.toList.dropWhile isPyWs).reverse.dropWhile isPyWs).reverse)

/-- Model of Python `s.rstrip("\n")`: drop all trailing newline characters. -/
def rstripNL (s : String) : String :=
  String.mk ((s.toList.reverse.dropWhile (· = '\n')).reverse)

/-- Helper for `pySplitlines`: accumulate the current line (reversed). -/
def splitlinesGo (acc : List Char) : List Char → List String
  | [] => if acc.isEmpty then [] else [String.mk acc.reverse]
  | c :: rest =>
    if c = '\n' then String.mk acc.reverse :: splitlinesGo [] rest
    else splitlinesGo (c :: acc) rest

/-- Model of Python `s.splitlines()` on text-mode output, where universal
newline translation has already normalised line endings to `'\n'`: split on
newline characters, with no trailing empty entry for a trailing newline. -/
def pySplitlines (s : String) : List String :=
  splitlinesGo [] s.toList

/-- Substring search on character lists: `needle` is a prefix of `hay`. -/
def isPrefixLC : List Char → List Char → Bool
  | [], _ => true
  | _ :: _, [] => false
  | a :: as, b :: bs => a = b && isPrefixLC as bs

/-- Substring search on character lists: `needle` occurs somewhere in `hay`. -/
def containsSub (needle : List Char) : List Char → Bool
  | [] => needle.isEmpty
  | c :: rest => isPrefixLC needle (c :: rest) || containsSub needle rest

/-- Model of `re.search(pat, line)` restricted to patterns without
regular-expression metacharacters, where it is exactly substring search. -/
def strSearch (pat line : String) : Bool :=
  containsSub pat.toList line.toList

/-- An invalid-regex marker used by the concrete `re.search` model below. -/
def badRegexMsg : String := "missing ), unterminated subpattern at position 0"

/-- Concrete model of `re.search` for the inputs used in this development:
the single pattern string "(" is syntactically invalid and raises `re.error`
(modelled as `.error`), every other pattern used here is metacharacter-free
and behaves as substring search. -/
def reSearchModel (pat line : String) : Except String Bool :=
  if pat = "(" then .error badRegexMsg else .ok (strSearch pat line)

/-- Mirror of `class Pattern` (`@dataclass(frozen=True)`): a named detection
rule with a regular-expression string `match`. -/
structure Pattern where
  name : String
  «match» : String
deriving DecidableEq, Repr

/-- Captured result of `subprocess.run(cmd, capture_output=True, text=True)`. -/
structure SubprocessResult where
  returncode : Int
  stdout : String
  stderr : String

/-- Mirror of the argv built in `tail_remote_lines`:
`["ssh", f"\x7buser\x7d@\x7bhost\x7d", f"tail -n \x7bn\x7d \x7bpath\x7d"]`. -/
def ssh_cmd (user host path : String) (n : Nat) : List String :=
  ["ssh", user ++ "@" ++ host, "tail -n " ++ toString n ++ " " ++ path]

/-- Mirror of `tail_remote_lines`: run the ssh command through the transport;
on nonzero exit return no lines plus an error message (`stderr.strip()` when
non-empty, else the generic fallback), on zero exit return
`stdout.splitlines()` and no error. -/
def tail_remote_lines (transport : List String → SubprocessResult)
    (user host path : String) (n : Nat) : List String × Option String :=
  let result := transport (ssh_cmd user host path n)
  if result.returncode ≠ 0 then
    ([], some (if pyStrip result.stderr = ""
               then "SSH exited with code " ++ toString result.returncode
               else pyStrip result.stderr))
  else (pySplitlines result.stdout, none)

/-- Model of the Python slice `lines[-n:]` for a non-negative `n`:
the whole list when `n = 0`, otherwise the last `min n lines.length`
elements. -/
def pySliceLastN (lines : List String) (n : Nat) : List String :=
  if n = 0 then lines else lines.drop (lines.length - n)

/-- Mirror of `tail_last_lines`: read all lines of the file at `path`
(modelled as `Option (List String)`, `none` for `FileNotFoundError`, which
is caught and yields `[]`) and return the slice `lines[-n:]`. -/
def tail_last_lines (file : Option (List String)) (n : Nat) : List String :=
  match file with
  | none => []
  | some lines => pySliceLastN lines n

/-- Inner loop of `find_matches` over one line: for each pattern in order,
evaluate `re.search(p.match, line)`; a raised `re.error` aborts the whole
loop, a successful match appends `(p, line.rstrip("\n"))`. -/
def match_line (search : String → String → Except String Bool) (line : String) :
    List Pattern → Except String (List (Pattern × String))
  | [] => .ok []
  | p :: ps =>
    match search p.«match» line with
    | .error e => .error e
    | .ok b =>
      match match_line search line ps with
      | .error e => .error e
      | .ok rest => .ok (if b then (p, rstripNL line) :: rest else rest)

/-- Mirror of `find_matches`: outer loop over lines, inner loop over
patterns, appending hits in encounter order; an `re.error` raised by the
search propagates out. -/
def find_matches (search : String → String → Except String Bool)
    (lines : List String) (patterns : List Pattern) :
    Except String (List (Pattern × String)) :=
  match lines with
  | [] => .ok []
  | l :: ls =>
    match match_line search l patterns with
    | .error e => .error e
    | .ok h =>
      match find_matches search ls patterns with
      | .error e => .error e
      | .ok rest => .ok (h ++ rest)

/-- Model of Python `"\n".join(xs)`. -/
def joinNL : List String → String
  | [] => ""
  | [x] => x
  | x :: y :: xs => x ++ "\n" ++ joinNL (y :: xs)

/-- Mirror of the `hit_lines` expression in `write_incident`:
`"\n".join([f"- **\x7bp.name\x7d**: \x60\x7bline\x7d\x60" for p, line in hits]) if hits else "- (none)"`. -/
def render_hit_lines (hits : List (Pattern × String)) : String :=
  match hits with
  | [] => "- (none)"
  | _ =>
    joinNL (hits.map (fun ph => "- **" ++ ph.1.name ++ "**: " ++ "`" ++ ph.2 ++ "`"))

/-- Mirror of the `body` list built in `write_incident`; `timeIso` stands for
`datetime.now().isoformat(timespec='seconds')`. -/
def incident_body (title timeIso log_path : String)
    (context : List String) (hits : List (Pattern × String)) : List String :=
  (["# Incident: " ++ title, "",
    "- Time: " ++ timeIso,
    "- Log: `" ++ log_path ++ "`", "",
    "## Detected signals",
    render_hit_lines hits, "",
    "## Context (tail)", "```log"]
   ++ context.map rstripNL
   ++ ["```", "",
       "## Next steps",
       "- Add runbook steps you took in `docs/04_Runbook.md`.",
       "- If this repeats, add a new detection pattern in `agent/config.yaml`.",
       ""])

/-- Mirror of the document persisted by `write_incident`:
`"\n".join(body) + "\n"`, written as UTF-8 text. -/
def render_incident (title timeIso log_path : String)
    (context : List String) (hits : List (Pattern × String)) : String :=
  joinNL (incident_body title timeIso log_path context hits) ++ "\n"

/-- Nested record of the `remote` section of the configuration; each field
is `none` when the key is absent. -/
structure Remote where
  user : Option String
  host : Option String
  log_file : Option String

/-- Python truthiness of an optional string: present and non-empty. -/
def truthyS : Option String → Bool
  | none => false
  | some s => s ≠ ""

/-- The already-parsed configuration dictionary consumed by `main`:
top-level `log_file` (used only by the spec's local mode), optional
`remote` section, `tail_lines` (default 200), `postmortems_dir` and the
pattern list. -/
structure Config where
  log_file : Option String := none
  remote : Option Remote := none
  tail_lines : Nat := 200
  postmortems_dir : String := "docs/05_Postmortems"
  patterns : List Pattern := []

/-- The argument record `main` passes to `write_incident` when hits exist. -/
structure Incident where
  postmortems_dir : String
  title : String
  log_path : String
  context : List String
  hits : List (Pattern × String)

/-- Outcome of one run of `main`: the list of outbound commands issued and
either an uncaught exception message (`.error`, the `re.error` case) or the
process exit code together with the incident passed to `write_incident`
(`none` when nothing is written). -/
structure RunOutcome where
  cmds : List (List String)
  result : Except String (Int × Option Incident)

/-- Tail of `main` after configuration validation: fetch via ssh, classify
fetch failure and emptiness, match, truncate hits to ten and build the
incident record. -/
def runRest (search : String → String → Except String Bool)
    (transport : List String → SubprocessResult)
    (user host log_file : String) (tail_n : Nat)
    (postmortems_dir : String) (patterns : List Pattern) :
    Except String (Int × Option Incident) :=
  let fetched := tail_remote_lines transport user host log_file tail_n
  match fetched.2 with
  | some _ => .ok (1, none)
  | none =>
    let lines := fetched.1
    if lines.isEmpty then .ok (1, none)
    else
      match find_matches search lines patterns with
      | .error e => .error e
      | .ok hits =>
        match hits with
        | [] => .ok (0, none)
        | h :: _ =>
          .ok (0, some ⟨postmortems_dir, h.1.name, log_file, lines, hits.take 10⟩)

/-- Mirror of `main` (after the external config-file loading): validate the
`remote` section (exit 2 when missing or when `user`, `host` or `log_file`
is absent or empty — the top-level `log_file` key is never consulted),
otherwise issue the single ssh command and continue with `runRest`. -/
def runMain (cfg : Config) (search : String → String → Except String Bool)
    (transport : List String → SubprocessResult) : RunOutcome :=
  match cfg.remote with
  | none => ⟨[], .ok (2, none)⟩
  | some remote =>
    if truthyS remote.user && truthyS remote.host && truthyS remote.log_file then
      let user := remote.user.getD ""
      let host := remote.host.getD ""
      let log_file := remote.log_file.getD ""
      ⟨[ssh_cmd user host log_file cfg.tail_lines],
       runRest search transport user host log_file cfg.tail_lines
         cfg.postmortems_dir cfg.patterns⟩
    else ⟨[], .ok (2, none)⟩

/-! Concrete scenario data used by counterexamples and witnesses. -/

/-- Scenario A configuration from the spec: local mode, top-level
`log_file`, no `remote` section, tail 10, one pattern. -/
def cfgA : Config :=
  { log_file := some "server.log", tail_lines := 10,
    patterns := [⟨"DiskFull", "ERROR disk full"⟩] }

/-- A transport that would succeed with the scenario-A log content, were it
ever invoked. -/
def transportA : List String → SubprocessResult :=
  fun _ => ⟨0, "2024 OK\n2024 ERROR disk full\n", ""⟩

/-- A valid remote configuration whose single pattern has the syntactically
invalid match expression "(". -/
def cfgB : Config :=
  { remote := some ⟨some "u", some "h", some "/var/log/app.log"⟩,
    patterns := [⟨"Bad", "("⟩] }

/-- A transport returning one log line successfully. -/
def transportB : List String → SubprocessResult :=
  fun _ => ⟨0, "hello\n", ""⟩

/-- A valid remote configuration used by the hit-truncation witness:
one pattern matching every line of a fifteen-line log. -/
def cfg15 : Config :=
  { remote := some ⟨some "u", some "h", some "/var/log/app.log"⟩,
    tail_lines := 20, patterns := [⟨"E", "ERROR"⟩] }

/-- A transport returning fifteen matching log lines. -/
def transport15 : List String → SubprocessResult :=
  fun _ => ⟨0, "ERROR 1\nERROR 2\nERROR 3\nERROR 4\nERROR 5\nERROR 6\nERROR 7\nERROR 8\nERROR 9\nERROR 10\nERROR 11\nERROR 12\nERROR 13\nERROR 14\nERROR 15\n", ""⟩

/-- The fifteen fetched lines of the truncation scenario. -/
def lines15 : List String :=
  ["ERROR 1", "ERROR 2", "ERROR 3", "ERROR 4", "ERROR 5", "ERROR 6",
   "ERROR 7", "ERROR 8", "ERROR 9", "ERROR 10", "ERROR 11", "ERROR 12",
   "ERROR 13", "ERROR 14", "ERROR 15"]

/-- The incident record `main` hands to `write_incident` in the truncation
scenario: full fifteen-line context, hits truncated to the first ten. -/
def inc15 : Incident :=
  ⟨"docs/05_Postmortems", "E", "/var/log/app.log", lines15,
   (lines15.take 10).map (fun l => (⟨"E", "ERROR"⟩, l))⟩

/-- Scenario-A data served remotely: a valid remote configuration with the
DiskFull pattern, used by the title-selection witness. -/
def cfgD : Config :=
  { remote := some ⟨some "ops", some "db1", some "/var/log/server.log"⟩,
    tail_lines := 10, patterns := [⟨"DiskFull", "ERROR disk full"⟩] }

/-- The incident record produced in the `cfgD` run. -/
def incD : Incident :=
  ⟨"docs/05_Postmortems", "DiskFull", "/var/log/server.log",
   ["2024 OK", "2024 ERROR disk full"],
   [(⟨"DiskFull", "ERROR disk full"⟩, "2024 ERROR disk full")]⟩

/-- A second remote configuration agreeing with `cfgD` on user, host, remote
path and tail count but differing in patterns and output directory. -/
def cfgD' : Config :=
  { remote := some ⟨some "ops", some "db1", some "/var/log/server.log"⟩,
    tail_lines := 10, postmortems_dir := "elsewhere",
    patterns := [⟨"Other", "WARN"⟩, ⟨"More", "FATAL"⟩] }

/-- A failing transport with diagnostic text on standard error. -/
def transportErr : List String → SubprocessResult :=
  fun _ => ⟨255, "", "ssh: connect to host db1 port 22: Connection refused\n"⟩

/-- A failing transport with no diagnostic text. -/
def transportErrSilent : List String → SubprocessResult :=
  fun _ => ⟨255, "", "  \n"⟩

/-! Helper lemmas. -/

/-- With an error-free search, the inner pattern loop produces exactly the
patterns that match the line, in declaration order. -/
theorem match_line_pure (sb : String → String → Bool) (line : String)
    (ps : List Pattern) :
    match_line (fun p l => .ok (sb p l)) line ps =
      .ok ((ps.filter (fun p => sb p.«match» line)).map
            (fun p => (p, rstripNL line))) := by
  induction ps with
  | nil => rfl
  | cons p ps ih =>
    simp only [match_line, ih, List.filter_cons]
    cases h : sb p.«match» line <;> simp [h]

/-- With an error-free search, `find_matches` is the line-major,
pattern-minor enumeration of all matching (line, pattern) pairs. -/
theorem find_matches_pure (sb : String → String → Bool)
    (lines : List String) (patterns : List Pattern) :
    find_matches (fun p l => .ok (sb p l)) lines patterns =
      .ok ((lines.map (fun l =>
             (patterns.filter (fun p => sb p.«match» l)).map
               (fun p => (p, rstripNL l)))).flatten) := by
  induction lines with
  | nil => rfl
  | cons l ls ih =>
    simp only [find_matches, match_line_pure, ih, List.map_cons, List.flatten_cons]

/-- An empty pattern list yields an empty result for any search function,
fallible or not: no search is ever evaluated. -/
theorem find_matches_no_patterns (s : String → String → Except String Bool)
    (lines : List String) : find_matches s lines [] = .ok [] := by
  induction lines with
  | nil => rfl
  | cons l ls ih => simp only [find_matches, match_line, ih, List.nil_append]

/-- Appending a last element to a joined list. -/
theorem joinNL_concat (xs : List String) (y : String) :
    joinNL (xs ++ [y]) = if xs.isEmpty then y else joinNL xs ++ ("\n" ++ y) := by
  induction xs with
  | nil => rfl
  | cons x xs ih =>
    cases xs with
    | nil => simp [joinNL, String.append_assoc]
    | cons z zs =>
      have hstep : joinNL ((x :: z :: zs) ++ [y]) =
          x ++ "\n" ++ joinNL ((z :: zs) ++ [y]) := rfl
      rw [hstep, ih]
      simp [joinNL, String.append_assoc]

/-! Claim theorems. -/

/-- C4: for an existing local file with `K` lines and a positive requested
tail `N`, `tail_last_lines` returns exactly `min N K` lines which are
precisely the file's final `min N K` lines in on-disk order, and for a
nonexistent path it returns the empty sequence without error. -/
theorem c4_local_tail_bound (L : List String) (n : Nat) (hn : 0 < n) :
    (tail_last_lines (some L) n).length = min n L.length ∧
    L.take (L.length - n) ++ tail_last_lines (some L) n = L ∧
    tail_last_lines none n = [] := by
  have hne : n ≠ 0 := Nat.pos_iff_ne_zero.mp hn
  refine ⟨?_, ?_, rfl⟩
  · simp only [tail_last_lines, pySliceLastN, if_neg hne, List.length_drop]
    omega
  · simp only [tail_last_lines, pySliceLastN, if_neg hne, List.take_append_drop]

/-- C4 witness: a three-line file with tail 2 returns its final two lines. -/
theorem c4_local_tail_bound_witness :
    (tail_last_lines (some ["a", "b", "c"]) 2).length = min 2 3 ∧
    (["a", "b", "c"] : List String).take 1 ++ tail_last_lines (some ["a", "b", "c"]) 2
      = ["a", "b", "c"] ∧
    tail_last_lines none 2 = [] :=
  c4_local_tail_bound ["a", "b", "c"] 2 (by decide)

/-- C5: with an error-free search, `find_matches` emits one hit per matching
(line, pattern) pair in line-major, pattern-declaration-minor order with no
deduplication; on the spec's concrete example it yields exactly
[(A, "foo bar"), (B, "foo bar"), (B, "baz")]; empty pattern or line lists
yield empty results for any search, without error. -/
theorem c5_matcher_order :
    (∀ (sb : String → String → Bool) (lines : List String) (patterns : List Pattern),
       find_matches (fun p l => .ok (sb p l)) lines patterns =
         .ok ((lines.map (fun l =>
                (patterns.filter (fun p => sb p.«match» l)).map
                  (fun p => (p, rstripNL l)))).flatten)) ∧
    find_matches (fun p l => .ok (strSearch p l)) ["foo bar", "baz"]
        [⟨"A", "foo"⟩, ⟨"B", "ba"⟩] =
      .ok [(⟨"A", "foo"⟩, "foo bar"), (⟨"B", "ba"⟩, "foo bar"),
           (⟨"B", "ba"⟩, "baz")] ∧
    (∀ (s : String → String → Except String Bool) (lines : List String),
       find_matches s lines [] = .ok []) ∧
    (∀ (s : String → String → Except String Bool) (patterns : List Pattern),
       find_matches s [] patterns = .ok []) :=
  ⟨find_matches_pure, rfl, find_matches_no_patterns, fun _ _ => rfl⟩

/-- C6: when the transport exits nonzero, the remote fetch returns no lines
and an error message equal to the trimmed standard-error text when that is
non-empty and otherwise to the generic fallback carrying the exit code;
when the transport exits zero, it returns the split standard output and no
error. -/
theorem c6_remote_fetch_error (transport : List String → SubprocessResult)
    (user host path : String) (n : Nat) :
    ((transport (ssh_cmd user host path n)).returncode ≠ 0 →
      (tail_remote_lines transport user host path n).1 = [] ∧
      ∃ m, (tail_remote_lines transport user host path n).2 = some m ∧
        ((pyStrip (transport (ssh_cmd user host path n)).stderr ≠ "" ∧
          m = pyStrip (transport (ssh_cmd user host path n)).stderr) ∨
         (pyStrip (transport (ssh_cmd user host path n)).stderr = "" ∧
          m = "SSH exited with code " ++
              toString (transport (ssh_cmd user host path n)).returncode))) ∧
    ((transport (ssh_cmd user host path n)).returncode = 0 →
      tail_remote_lines transport user host path n =
        (pySplitlines (transport (ssh_cmd user host path n)).stdout, none)) := by
  constructor
  · intro hrc
    have key : tail_remote_lines transport user host path n =
        ([], some (if pyStrip (transport (ssh_cmd user host path n)).stderr = ""
                   then "SSH exited with code " ++
                        toString (transport (ssh_cmd user host path n)).returncode
                   else pyStrip (transport (ssh_cmd user host path n)).stderr)) := by
      simp only [tail_remote_lines]
      rw [if_pos hrc]
    refine ⟨by rw [key], ?_⟩
    by_cases hs : pyStrip (transport (ssh_cmd user host path n)).stderr = ""
    · refine ⟨_, ?_, Or.inr ⟨hs, rfl⟩⟩
      rw [key, if_pos hs]
    · refine ⟨_, ?_, Or.inl ⟨hs, rfl⟩⟩
      rw [key, if_neg hs]
  · intro hrc
    simp only [tail_remote_lines]
    rw [if_neg (by simp [hrc])]

/-- C6 witness: a transport failing with diagnostic text yields that trimmed
text; a transport failing silently yields the generic fallback; a succeeding
transport yields its split output and no error. -/
theorem c6_remote_fetch_error_witness :
    ((tail_remote_lines transportErr "ops" "db1" "/var/log/server.log" 10).1 = [] ∧
     ∃ m, (tail_remote_lines transportErr "ops" "db1" "/var/log/server.log" 10).2 = some m ∧
       ((pyStrip (transportErr (ssh_cmd "ops" "db1" "/var/log/server.log" 10)).stderr ≠ "" ∧
         m = pyStrip (transportErr (ssh_cmd "ops" "db1" "/var/log/server.log" 10)).stderr) ∨
        (pyStrip (transportErr (ssh_cmd "ops" "db1" "/var/log/server.log" 10)).stderr = "" ∧
         m = "SSH exited with code " ++
             toString (transportErr (ssh_cmd "ops" "db1" "/var/log/server.log" 10)).returncode))) ∧
    ((tail_remote_lines transportErrSilent "ops" "db1" "/var/log/server.log" 10).1 = [] ∧
     ∃ m, (tail_remote_lines transportErrSilent "ops" "db1" "/var/log/server.log" 10).2 = some m ∧
       ((pyStrip (transportErrSilent (ssh_cmd "ops" "db1" "/var/log/server.log" 10)).stderr ≠ "" ∧
         m = pyStrip (transportErrSilent (ssh_cmd "ops" "db1" "/var/log/server.log" 10)).stderr) ∨
        (pyStrip (transportErrSilent (ssh_cmd "ops" "db1" "/var/log/server.log" 10)).stderr = "" ∧
         m = "SSH exited with code " ++
             toString (transportErrSilent (ssh_cmd "ops" "db1" "/var/log/server.log" 10)).returncode))) ∧
    tail_remote_lines transportB "ops" "db1" "/var/log/server.log" 10 =
      (pySplitlines (transportB (ssh_cmd "ops" "db1" "/var/log/server.log" 10)).stdout, none) :=
  ⟨(c6_remote_fetch_error transportErr "ops" "db1" "/var/log/server.log" 10).1 (by decide),
   (c6_remote_fetch_error transportErrSilent "ops" "db1" "/var/log/server.log" 10).1 (by decide),
   (c6_remote_fetch_error transportB "ops" "db1" "/var/log/server.log" 10).2 rfl⟩

/-- C1 counterexample: the spec's local-mode configuration (top-level
`log_file`, no `remote` section) does not run the pipeline: `main` exits
with the configuration-error code 2, writes nothing and issues no command,
instead of exiting 0 with one incident file. -/
theorem c1_counterexample :
    (runMain cfgA reSearchModel transportA).result = .ok (2, none) ∧
    (runMain cfgA reSearchModel transportA).cmds = [] ∧ (2 : Int) ≠ 0 :=
  ⟨rfl, rfl, by decide⟩

/-- C1 (amended): `main` supports only remote mode: every configuration
without a `remote` section — including the spec's local mode
`\x7b log_file: path \x7d` — terminates immediately with exit code 2,
no incident written and no fetch attempted; the local-file tail is never
selected. -/
theorem c1_local_mode_rejected (cfg : Config)
    (search : String → String → Except String Bool)
    (transport : List String → SubprocessResult)
    (h : cfg.remote = none) :
    runMain cfg search transport = ⟨[], .ok (2, none)⟩ := by
  simp only [runMain, h]

/-- C1 witness: the scenario-A local configuration exits 2 with nothing
written. -/
theorem c1_local_mode_rejected_witness :
    runMain cfgA reSearchModel transportA = ⟨[], .ok (2, none)⟩ :=
  c1_local_mode_rejected cfgA reSearchModel transportA rfl

/-- C2 counterexample: a configuration whose pattern list carries the
syntactically invalid match expression "(" is accepted (the fetch is
issued, so validation passed), yet the run aborts with an uncaught
regular-expression error raised during matching. -/
theorem c2_counterexample :
    (runMain cfgB reSearchModel transportB).result = .error badRegexMsg ∧
    (runMain cfgB reSearchModel transportB).cmds ≠ [] :=
  ⟨rfl, by decide⟩

/-- C2 (amended): configuration validation never inspects the pattern
match expressions, so an invalid regular expression is not rejected as a
configuration error; instead the `re.error` it raises when the Matcher
first evaluates it propagates out of the run uncaught. -/
theorem c2_invalid_regex_raises (cfg : Config) (r : Remote)
    (search : String → String → Except String Bool)
    (transport : List String → SubprocessResult)
    (p : Pattern) (ps : List Pattern) (e l : String) (ls : List String)
    (hr : cfg.remote = some r)
    (hu : truthyS r.user = true) (hh : truthyS r.host = true)
    (hf : truthyS r.log_file = true)
    (hrc : (transport (ssh_cmd (r.user.getD "") (r.host.getD "")
             (r.log_file.getD "") cfg.tail_lines)).returncode = 0)
    (hout : pySplitlines (transport (ssh_cmd (r.user.getD "") (r.host.getD "")
             (r.log_file.getD "") cfg.tail_lines)).stdout = l :: ls)
    (hp : cfg.patterns = p :: ps)
    (hs : search p.«match» l = .error e) :
    (runMain cfg search transport).result = .error e := by
  have key : tail_remote_lines transport (r.user.getD "") (r.host.getD "")
      (r.log_file.getD "") cfg.tail_lines = (l :: ls, none) := by
    simp only [tail_remote_lines]
    rw [if_neg (by simp [hrc]), hout]
  have hfm : find_matches search (l :: ls) cfg.patterns = .error e := by
    rw [hp]
    simp only [find_matches, match_line, hs]
  simp only [runMain, hr]
  rw [if_pos (by rw [hu, hh, hf]; rfl)]
  simp only [runRest, key, hfm]
  simp

/-- C2 witness: the concrete invalid-pattern run aborts with the regex
error. -/
theorem c2_invalid_regex_raises_witness :
    (runMain cfgB reSearchModel transportB).result = .error badRegexMsg :=
  c2_invalid_regex_raises cfgB ⟨some "u", some "h", some "/var/log/app.log"⟩
    reSearchModel transportB ⟨"Bad", "("⟩ [] badRegexMsg "hello" []
    rfl (by decide) (by decide) (by decide) rfl rfl rfl rfl

set_option maxRecDepth 8192 in
/-- C3 counterexample: on concrete inputs the persisted document ends with
two consecutive newline characters, not exactly one. -/
theorem c3_counterexample :
    (render_incident "DiskFull" "2024-01-01T00:00:00" "server.log"
       ["2024 OK", "2024 ERROR disk full"]
       [(⟨"DiskFull", "ERROR disk full"⟩, "2024 ERROR disk full")]).takeRight 2
      = "\n\n" := by
  decide

/-- Joining any prefix with the fixed next-steps tail of the incident body
produces a string ending in the final guidance bullet plus one newline. -/
theorem joinNL_next_steps (xs : List String) :
    ∃ s, joinNL (xs ++ ["```", "",
        "## Next steps",
        "- Add runbook steps you took in `docs/04_Runbook.md`.",
        "- If this repeats, add a new detection pattern in `agent/config.yaml`.",
        ""]) =
      s ++ ("- If this repeats, add a new detection pattern in `agent/config.yaml`."
            ++ "\n") := by
  induction xs with
  | nil =>
    refine ⟨"```\n\n## Next steps\n- Add runbook steps you took in `docs/04_Runbook.md`.\n", ?_⟩
    decide
  | cons x xs ih =>
    obtain ⟨s, hs⟩ := ih
    refine ⟨x ++ "\n" ++ s, ?_⟩
    have hcons : joinNL ((x :: xs) ++ ["```", "",
        "## Next steps",
        "- Add runbook steps you took in `docs/04_Runbook.md`.",
        "- If this repeats, add a new detection pattern in `agent/config.yaml`.",
        ""]) = x ++ "\n" ++ joinNL (xs ++ ["```", "",
        "## Next steps",
        "- Add runbook steps you took in `docs/04_Runbook.md`.",
        "- If this repeats, add a new detection pattern in `agent/config.yaml`.",
        ""]) := by
      cases xs <;> rfl
    rw [hcons, hs]
    simp [String.append_assoc]

/-- C3 (amended): for every title, timestamp, source identity, context and
hit list, the persisted document is newline-terminated but ends with
exactly two consecutive newline characters (the final period of the static
guidance bullet followed by two newlines), because the rendered body list
ends with an empty element before the final newline is appended. -/
theorem c3_trailing_newlines (title timeIso log_path : String)
    (context : List String) (hits : List (Pattern × String)) :
    ∃ s, render_incident title timeIso log_path context hits = s ++ ".\n\n" := by
  obtain ⟨s, hs⟩ := joinNL_next_steps
    (["# Incident: " ++ title, "",
      "- Time: " ++ timeIso,
      "- Log: `" ++ log_path ++ "`", "",
      "## Detected signals",
      render_hit_lines hits, "",
      "## Context (tail)", "```log"] ++ context.map rstripNL)
  refine ⟨s ++ "- If this repeats, add a new detection pattern in `agent/config.yaml`", ?_⟩
  simp only [render_incident, incident_body]
  rw [hs]
  simp only [String.append_assoc]
  congr 1

/-- Helper: whenever the post-validation pipeline hands an incident to the
writer, that incident is built from a non-empty hit list produced by
`find_matches` on the full fetched line window, with title the first hit's
pattern name and the hit list truncated to ten. -/
theorem runRest_spec (search : String → String → Except String Bool)
    (transport : List String → SubprocessResult)
    (u h f : String) (n : Nat) (dir : String) (patterns : List Pattern)
    (code : Int) (inc : Incident)
    (hres : runRest search transport u h f n dir patterns = .ok (code, some inc)) :
    ∃ (hd : Pattern × String) (tl : List (Pattern × String)),
      find_matches search (tail_remote_lines transport u h f n).1 patterns =
        .ok (hd :: tl) ∧
      inc = ⟨dir, hd.1.name, f, (tail_remote_lines transport u h f n).1,
             (hd :: tl).take 10⟩ := by
  simp only [runRest] at hres
  split at hres
  · simp at hres
  · split at hres
    · simp at hres
    · split at hres
      · simp at hres
      · split at hres
        · simp at hres
        · next hd tl hfm =>
          simp only [Except.ok.injEq, Prod.mk.injEq, Option.some.injEq] at hres
          exact ⟨hd, tl, hfm, hres.2.symm⟩

/-- Helper: a run whose result carries an incident went through the
valid-remote branch of `main`, so the incident is the `runRest` one for the
configured remote values. -/
theorem runMain_written (cfg : Config)
    (search : String → String → Except String Bool)
    (transport : List String → SubprocessResult)
    (code : Int) (inc : Incident)
    (h : (runMain cfg search transport).result = .ok (code, some inc)) :
    ∃ r, cfg.remote = some r ∧
      runRest search transport (r.user.getD "") (r.host.getD "")
        (r.log_file.getD "") cfg.tail_lines cfg.postmortems_dir cfg.patterns =
        .ok (code, some inc) := by
  unfold runMain at h
  split at h
  · simp at h
  · next r heq =>
    split at h
    · exact ⟨r, heq, h⟩
    · simp at h

/-- C7: whenever a run hands an incident to the writer, the Matcher ran on
the run's fetched line window — the lines returned by `tail_remote_lines`
for the configured remote values — the incident's context is that full
untruncated window, and the incident's hit list is exactly the first ten
hits of that Matcher result (all of them when there are ten or fewer) in
match order. -/
theorem c7_hits_capped_at_ten (cfg : Config)
    (search : String → String → Except String Bool)
    (transport : List String → SubprocessResult)
    (code : Int) (inc : Incident)
    (h : (runMain cfg search transport).result = .ok (code, some inc)) :
    ∃ r, cfg.remote = some r ∧
      ∃ hits, find_matches search
          (tail_remote_lines transport (r.user.getD "") (r.host.getD "")
            (r.log_file.getD "") cfg.tail_lines).1 cfg.patterns = .ok hits ∧
        inc.context = (tail_remote_lines transport (r.user.getD "")
            (r.host.getD "") (r.log_file.getD "") cfg.tail_lines).1 ∧
        inc.hits = hits.take 10 ∧ hits ≠ [] := by
  obtain ⟨r, hr, hrest⟩ := runMain_written cfg search transport code inc h
  obtain ⟨hd, tl, hfm, hinc⟩ := runRest_spec _ _ _ _ _ _ _ _ _ _ hrest
  exact ⟨r, hr, hd :: tl, hfm, by rw [hinc], by rw [hinc], by simp⟩

/-- C7 witness: a fifteen-hit run passes exactly ten hits to the writer
alongside the complete fifteen-line fetched window as context. -/
theorem c7_hits_capped_at_ten_witness :
    inc15.hits.length = 10 ∧ inc15.context.length = 15 ∧
    (∃ r, cfg15.remote = some r ∧
      ∃ hits, find_matches reSearchModel
          (tail_remote_lines transport15 (r.user.getD "") (r.host.getD "")
            (r.log_file.getD "") cfg15.tail_lines).1 cfg15.patterns = .ok hits ∧
        inc15.context = (tail_remote_lines transport15 (r.user.getD "")
            (r.host.getD "") (r.log_file.getD "") cfg15.tail_lines).1 ∧
        inc15.hits = hits.take 10 ∧ hits ≠ []) :=
  ⟨by decide, by decide,
   c7_hits_capped_at_ten cfg15 reSearchModel transport15 0 inc15 rfl⟩

/-- C8: whenever a run hands an incident to the writer, the incident title
is the name of the pattern attached to the very first hit of the Matcher
result for the run's fetched line window — the lines returned by
`tail_remote_lines` for the configured remote values. -/
theorem c8_title_is_first_hit (cfg : Config)
    (search : String → String → Except String Bool)
    (transport : List String → SubprocessResult)
    (code : Int) (inc : Incident)
    (h : (runMain cfg search transport).result = .ok (code, some inc)) :
    ∃ r, cfg.remote = some r ∧
      ∃ hd tl, find_matches search
          (tail_remote_lines transport (r.user.getD "") (r.host.getD "")
            (r.log_file.getD "") cfg.tail_lines).1 cfg.patterns =
          .ok (hd :: tl) ∧
        inc.title = hd.1.name := by
  obtain ⟨r, hr, hrest⟩ := runMain_written cfg search transport code inc h
  obtain ⟨hd, tl, hfm, hinc⟩ := runRest_spec _ _ _ _ _ _ _ _ _ _ hrest
  exact ⟨r, hr, hd, tl, hfm, by rw [hinc]⟩

/-- C8 witness: in the scenario-A log served remotely, the incident title
is "DiskFull", the pattern of the first (and only) hit of the Matcher run
on the fetched window. -/
theorem c8_title_is_first_hit_witness :
    ∃ r, cfgD.remote = some r ∧
      ∃ hd tl, find_matches reSearchModel
          (tail_remote_lines transportA (r.user.getD "") (r.host.getD "")
            (r.log_file.getD "") cfgD.tail_lines).1 cfgD.patterns =
          .ok (hd :: tl) ∧
        incD.title = hd.1.name :=
  c8_title_is_first_hit cfgD reSearchModel transportA 0 incD rfl

/-- Helper: a validated remote configuration issues exactly the one ssh
command built from its user, host, remote path and tail count. -/
theorem runMain_cmds (cfg : Config) (r : Remote)
    (search : String → String → Except String Bool)
    (transport : List String → SubprocessResult)
    (hr : cfg.remote = some r)
    (hu : truthyS r.user = true) (hh : truthyS r.host = true)
    (hf : truthyS r.log_file = true) :
    (runMain cfg search transport).cmds =
      [ssh_cmd (r.user.getD "") (r.host.getD "") (r.log_file.getD "")
        cfg.tail_lines] := by
  simp only [runMain, hr]
  rw [if_pos (by rw [hu, hh, hf]; rfl)]

/-- C9: the single outbound command of a run depends only on the remote
user, host, log path and tail count: two validated configurations agreeing
on those four values issue identical command lists — a one-element list
holding the ssh command built from exactly those values — regardless of
their patterns, output directory, search function or transport. -/
theorem c9_command_depends_on_four (cfg₁ cfg₂ : Config) (r₁ r₂ : Remote)
    (s₁ s₂ : String → String → Except String Bool)
    (t₁ t₂ : List String → SubprocessResult)
    (hr₁ : cfg₁.remote = some r₁) (hr₂ : cfg₂.remote = some r₂)
    (hu₁ : truthyS r₁.user = true) (hh₁ : truthyS r₁.host = true)
    (hf₁ : truthyS r₁.log_file = true)
    (hu₂ : truthyS r₂.user = true) (hh₂ : truthyS r₂.host = true)
    (hf₂ : truthyS r₂.log_file = true)
    (hu : r₁.user = r₂.user) (hh : r₁.host = r₂.host)
    (hf : r₁.log_file = r₂.log_file)
    (hn : cfg₁.tail_lines = cfg₂.tail_lines) :
    (runMain cfg₁ s₁ t₁).cmds = (runMain cfg₂ s₂ t₂).cmds ∧
    (runMain cfg₁ s₁ t₁).cmds =
      [ssh_cmd (r₁.user.getD "") (r₁.host.getD "") (r₁.log_file.getD "")
        cfg₁.tail_lines] := by
  have h₁ := runMain_cmds cfg₁ r₁ s₁ t₁ hr₁ hu₁ hh₁ hf₁
  have h₂ := runMain_cmds cfg₂ r₂ s₂ t₂ hr₂ hu₂ hh₂ hf₂
  refine ⟨?_, h₁⟩
  rw [h₁, h₂, hu, hh, hf, hn]

/-- C9 witness: two configurations sharing user, host, path and tail count
but differing in patterns and output directory issue the same single
command. -/
theorem c9_command_depends_on_four_witness :
    (runMain cfgD reSearchModel transportA).cmds =
      (runMain cfgD' reSearchModel transportErr).cmds ∧
    (runMain cfgD reSearchModel transportA).cmds =
      [ssh_cmd "ops" "db1" "/var/log/server.log" 10] :=
  c9_command_depends_on_four cfgD cfgD'
    ⟨some "ops", some "db1", some "/var/log/server.log"⟩
    ⟨some "ops", some "db1", some "/var/log/server.log"⟩
    reSearchModel reSearchModel transportA transportErr
    rfl rfl (by decide) (by decide) (by decide) (by decide) (by decide)
    (by decide) rfl rfl rfl rfl

/-- C10: calling `tail_last_lines` with limit 0 on an existing file returns
the entire file (the slice `lines[-0:]` is the whole list), so the
`min(limit, K)` bound on the returned length fails at limit 0 on a
non-empty file. -/
theorem c10_tail_zero_whole_file :
    (∀ L : List String, tail_last_lines (some L) 0 = L) ∧
    (tail_last_lines (some ["a"]) 0).length ≠ min 0 (["a"] : List String).length :=
  ⟨fun _ => rfl, by decide⟩

end Logwatch
